import Mathlib

/-!
Shallow embedding of the GEE timelapse scripts (`main.py` and
`streamlit0202.py`).  All raster computations in those scripts are
per-pixel band arithmetic, so an image is modelled at one pixel as a
valuation from band names to values: rational values for reflectance
bands, natural numbers for the integer QA bitmask bands.
-/

/-- Record of band names returned by `get_band_map` in `main.py`. -/
structure BandMap where
  red : String
  green : String
  blue : String
  nir : String
  swir1 : String
deriving DecidableEq

/-- Does the character list `hay` start with the character list `needle`? -/
def startsWithL : List Char → List Char → Bool
  | _, [] => true
  | [], _ :: _ => false
  | a :: as, b :: bs => a == b && startsWithL as bs

/-- Does `needle` occur as a contiguous run inside `hay`? -/
def occursIn (needle : List Char) : List Char → Bool
  | [] => needle.isEmpty
  | a :: t => startsWithL (a :: t) needle || occursIn needle t

/-- Python's substring test `needle in hay` on strings. -/
def strContains (hay needle : String) : Bool :=
  occursIn needle.data hay.data

/-- The dict literal returned by `get_band_map` for Sentinel satellites. -/
def sentinelBands : BandMap :=
  { red := "B4", green := "B3", blue := "B2", nir := "B8", swir1 := "B11" }

/-- The dict literal returned by `get_band_map` for all other satellites. -/
def landsatBands : BandMap :=
  { red := "B4", green := "B3", blue := "B2", nir := "B5", swir1 := "B6" }

/-- `get_band_map` from `main.py`: the branch is Python's `"Sentinel" in satellite`. -/
def get_band_map (satellite : String) : BandMap :=
  if strContains satellite "Sentinel" then sentinelBands else landsatBands

/-- `mask_clouds` from `main.py`, per pixel: `qaOf` gives the integer value of a
QA band at the pixel; the result is whether `updateMask` keeps the pixel,
namely whether `qa.bitwiseAnd(1 << b).eq(0)` holds for both tested bits. -/
def mask_clouds (satellite : String) (qaOf : String → ℕ) : Bool :=
  if strContains satellite "Sentinel" then
    let qa := qaOf "QA60"
    (qa &&& (1 <<< 10) == 0) && (qa &&& (1 <<< 11) == 0)
  else
    let qa := qaOf "QA_PIXEL"
    (qa &&& (1 <<< 3) == 0) && (qa &&& (1 <<< 4) == 0)

/-- `mask_clouds` from `streamlit0202.py`: same bits, but the Sentinel branch
is taken on exact equality with `"Sentinel-2"`. -/
def mask_clouds_st (satellite : String) (qaOf : String → ℕ) : Bool :=
  if satellite == "Sentinel-2" then
    let qa := qaOf "QA60"
    (qa &&& (1 <<< 10) == 0) && (qa &&& (1 <<< 11) == 0)
  else
    let qa := qaOf "QA_PIXEL"
    (qa &&& (1 <<< 3) == 0) && (qa &&& (1 <<< 4) == 0)

/-- Result of `apply_parameter` seen at one pixel: either the input image
unchanged, or a single computed band carrying its output name. -/
inductive ImgOut
  | img (px : String → ℚ)
  | band (name : String) (v : ℚ)

/-- Output band name of an `apply_parameter` result (`rename`); `none` when the
input image was returned unchanged. -/
def ImgOut.outName : ImgOut → Option String
  | .img _ => none
  | .band n _ => some n

/-- Per-pixel value of the computed index band; `none` when the input image was
returned unchanged. -/
def ImgOut.value : ImgOut → Option ℚ
  | .img _ => none
  | .band _ v => some v

/-- Earth Engine `image.normalizedDifference([b1, b2])` at one pixel. -/
def normalizedDifference (px : String → ℚ) (b1 b2 : String) : ℚ :=
  (px b1 - px b2) / (px b1 + px b2)

/-- `apply_parameter` from `main.py` at one pixel.  The `pairs` dict lookup is
unrolled into the equality tests on its four keys; `2.5` and `7.5` in the EVI
expression are the rationals `5/2` and `15/2`. -/
def apply_parameter (px : String → ℚ) (parameter satellite : String) : ImgOut :=
  let bm := get_band_map satellite
  if parameter == "Level1" then .img px
  else if parameter == "NDVI" then .band parameter (normalizedDifference px bm.nir bm.red)
  else if parameter == "NDWI" then .band parameter (normalizedDifference px bm.green bm.nir)
  else if parameter == "MNDWI" then .band parameter (normalizedDifference px bm.green bm.swir1)
  else if parameter == "NDSI" then .band parameter (normalizedDifference px bm.green bm.swir1)
  else if parameter == "EVI" then
    .band parameter ((5 / 2) * ((px bm.nir - px bm.red) /
      (px bm.nir + 6 * px bm.red - (15 / 2) * px bm.blue + 1)))
  else .img px

/-- The `col_id` dict subscript in `generate_timelapse` (`main.py`): a Python
`dict[key]` lookup raises `KeyError` outside its keys, modelled as `none`. -/
def collection_ids (satellite : String) : Option String :=
  if satellite == "Sentinel-2" then some "COPERNICUS/S2_SR_HARMONIZED"
  else if satellite == "Landsat-8" then some "LANDSAT/LC08/C02/T1_L2"
  else if satellite == "Landsat-9" then some "LANDSAT/LC09/C02/T1_L2"
  else none

/-- The band resolver as the spec's words describe it (for comparison with
`get_band_map`): total over the closed enumeration of the three satellites,
undefined (`none`) for any other input. -/
def bandResolverSpec (satellite : String) : Option BandMap :=
  if satellite == "Sentinel-2" then some sentinelBands
  else if satellite == "Landsat-8" then some landsatBands
  else if satellite == "Landsat-9" then some landsatBands
  else none

/-- Earth Engine `.sort("system:time_start")` on the filtered collection,
modelled on the list of `system:time_start` timestamps: a stable ascending
sort. -/
def sortByTimeStart (col : List ℕ) : List ℕ :=
  List.insertionSort (· ≤ ·) col

/-- The collection `generate_timelapse` sends for video rendering:
`.sort("system:time_start").limit(20)` after filtering. -/
def timelapseSelection (col : List ℕ) : List ℕ :=
  (sortByTimeStart col).take 20

/-- The frame scrubber of `streamlit0202.py`:
`collection.toList(total_count)` followed by `img_list.get(frame_idx - 1)`,
where `total_count` is the size of the collection. -/
def frame_scrubber (col : List ℕ) (frame_idx : ℕ) : Option ℕ :=
  (col.take col.length)[frame_idx - 1]?

/-- The four coordinates the rectangle-handling step of `streamlit0202.py`
stores in the session state. -/
structure Bounds where
  ul_lat : ℚ
  ul_lon : ℚ
  lr_lat : ℚ
  lr_lon : ℚ

/-- Rectangle handling from `streamlit0202.py`: `coords` is the drawn ring as
(lon, lat) pairs; the script stores `ul_lat = max(lats)`, `ul_lon = min(lons)`,
`lr_lat = min(lats)`, `lr_lon = max(lons)`.  Python's `max`/`min` raise on an
empty list, modelled as `none`. -/
def rectangle_bounds : List (ℚ × ℚ) → Option Bounds
  | [] => none
  | c :: cs =>
      some { ul_lat := (cs.map Prod.snd).foldl max c.2
           , ul_lon := (cs.map Prod.fst).foldl min c.1
           , lr_lat := (cs.map Prod.snd).foldl min c.2
           , lr_lon := (cs.map Prod.fst).foldl max c.1 }

/-! Helper lemmas. -/

/-- A bitmask test `n &&& (1 <<< k) = 0` means exactly that bit `k` of `n` is
clear. -/
theorem and_one_shiftLeft_eq_zero_iff (n k : ℕ) :
    (n &&& (1 <<< k) = 0) ↔ n.testBit k = false := by
  rw [Nat.one_shiftLeft, Nat.and_two_pow]
  simp

/-- The initial value bounds `List.foldl max` from below. -/
theorem le_foldl_max (a : ℚ) (l : List ℚ) : a ≤ l.foldl max a := by
  induction l generalizing a with
  | nil => exact le_refl a
  | cons x xs ih => exact le_trans (le_max_left a x) (ih (max a x))

/-- The initial value bounds `List.foldl min` from above. -/
theorem foldl_min_le (a : ℚ) (l : List ℚ) : l.foldl min a ≤ a := by
  induction l generalizing a with
  | nil => exact le_refl a
  | cons x xs ih => exact le_trans (ih (min a x)) (min_le_left a x)

/-! Claim theorems. -/

/-- C1: for every satellite and every per-pixel band values, `apply_parameter`
computes the normalized difference of the index's band pair for each of NDVI,
NDWI, MNDWI, NDSI: per pixel, NDVI is (nir - red)/(nir + red), NDWI is
(green - nir)/(green + nir), and MNDWI and NDSI are
(green - swir1)/(green + swir1), with the band names taken from
`get_band_map satellite`. -/
theorem apply_parameter_normalized_differences (satellite : String) (px : String → ℚ) :
    apply_parameter px "NDVI" satellite =
      .band "NDVI" ((px (get_band_map satellite).nir - px (get_band_map satellite).red) /
        (px (get_band_map satellite).nir + px (get_band_map satellite).red)) ∧
    apply_parameter px "NDWI" satellite =
      .band "NDWI" ((px (get_band_map satellite).green - px (get_band_map satellite).nir) /
        (px (get_band_map satellite).green + px (get_band_map satellite).nir)) ∧
    apply_parameter px "MNDWI" satellite =
      .band "MNDWI" ((px (get_band_map satellite).green - px (get_band_map satellite).swir1) /
        (px (get_band_map satellite).green + px (get_band_map satellite).swir1)) ∧
    apply_parameter px "NDSI" satellite =
      .band "NDSI" ((px (get_band_map satellite).green - px (get_band_map satellite).swir1) /
        (px (get_band_map satellite).green + px (get_band_map satellite).swir1)) :=
  ⟨rfl, rfl, rfl, rfl⟩

/-- C2: both cloud-mask functions keep a pixel iff two specific bits of the QA
bitmask band are both zero: bits 10 and 11 of `QA60` on the Sentinel branch,
bits 3 and 4 of `QA_PIXEL` otherwise (`main.py` branches on substring
containment of "Sentinel", `streamlit0202.py` on equality with
"Sentinel-2"). -/
theorem mask_clouds_keeps_iff (satellite : String) (qaOf : String → ℕ) :
    (mask_clouds satellite qaOf = true ↔
      (if strContains satellite "Sentinel" then
        (qaOf "QA60").testBit 10 = false ∧ (qaOf "QA60").testBit 11 = false
      else
        (qaOf "QA_PIXEL").testBit 3 = false ∧ (qaOf "QA_PIXEL").testBit 4 = false)) ∧
    (mask_clouds_st satellite qaOf = true ↔
      (if satellite == "Sentinel-2" then
        (qaOf "QA60").testBit 10 = false ∧ (qaOf "QA60").testBit 11 = false
      else
        (qaOf "QA_PIXEL").testBit 3 = false ∧ (qaOf "QA_PIXEL").testBit 4 = false)) := by
  constructor
  · cases h : strContains satellite "Sentinel" <;>
      simp only [mask_clouds, h, Bool.false_eq_true, if_false, if_true, Bool.and_eq_true,
        beq_iff_eq, and_one_shiftLeft_eq_zero_iff]
  · cases h : satellite == "Sentinel-2" <;>
      simp only [mask_clouds_st, h, Bool.false_eq_true, if_false, if_true, Bool.and_eq_true,
        beq_iff_eq, and_one_shiftLeft_eq_zero_iff]

/-- C6: for each of the three satellites of the enumeration, `get_band_map`
returns non-empty red, green, blue and nir band-name strings. -/
theorem get_band_map_rgbn_nonempty :
    (get_band_map "Sentinel-2").red ≠ "" ∧ (get_band_map "Sentinel-2").green ≠ "" ∧
    (get_band_map "Sentinel-2").blue ≠ "" ∧ (get_band_map "Sentinel-2").nir ≠ "" ∧
    (get_band_map "Landsat-8").red ≠ "" ∧ (get_band_map "Landsat-8").green ≠ "" ∧
    (get_band_map "Landsat-8").blue ≠ "" ∧ (get_band_map "Landsat-8").nir ≠ "" ∧
    (get_band_map "Landsat-9").red ≠ "" ∧ (get_band_map "Landsat-9").green ≠ "" ∧
    (get_band_map "Landsat-9").blue ≠ "" ∧ (get_band_map "Landsat-9").nir ≠ "" := by
  decide

/-- C10: for every image and satellite, `apply_parameter` gives MNDWI and NDSI
the same per-pixel value — both normalize the (green, swir1) pair — and the
results differ only in the output band name. -/
theorem mndwi_ndsi_same_value (satellite : String) (px : String → ℚ) :
    (apply_parameter px "MNDWI" satellite).value = (apply_parameter px "NDSI" satellite).value ∧
    (apply_parameter px "MNDWI" satellite).outName = some "MNDWI" ∧
    (apply_parameter px "NDSI" satellite).outName = some "NDSI" :=
  ⟨rfl, rfl, rfl⟩

/-- C3: for every image, satellite, and index name outside
{Level1, NDVI, NDWI, MNDWI, NDSI, EVI}, `apply_parameter` returns the input
image unchanged rather than raising an error. -/
theorem apply_parameter_unknown_unchanged (px : String → ℚ) (parameter satellite : String)
    (h : parameter ∉ (["Level1", "NDVI", "NDWI", "MNDWI", "NDSI", "EVI"] : List String)) :
    apply_parameter px parameter satellite = .img px := by
  simp only [List.mem_cons, List.not_mem_nil, or_false, not_or] at h
  obtain ⟨h1, h2, h3, h4, h5, h6⟩ := h
  simp [apply_parameter, beq_iff_eq, h1, h2, h3, h4, h5, h6]

/-- Witness for C3 at the concrete unknown name "SAVI". -/
theorem apply_parameter_unknown_unchanged_witness :
    ("SAVI" : String) ∉ (["Level1", "NDVI", "NDWI", "MNDWI", "NDSI", "EVI"] : List String) ∧
    apply_parameter (fun _ => 1) "SAVI" "Sentinel-2" = .img (fun _ => 1) :=
  ⟨by decide, apply_parameter_unknown_unchanged (fun _ => 1) "SAVI" "Sentinel-2" (by decide)⟩

/-- C4 counterexample: `get_band_map` is not undefined or an error outside the
three-satellite enumeration — at the input "SPOT" it returns the fixed Landsat
record, where the resolver transcribed from the spec's words returns `none`. -/
theorem get_band_map_total_counterexample :
    ("SPOT" : String) ∉ (["Sentinel-2", "Landsat-8", "Landsat-9"] : List String) ∧
    get_band_map "SPOT" = landsatBands ∧
    bandResolverSpec "SPOT" = none :=
  ⟨by decide, rfl, rfl⟩

/-- C4 amended: `get_band_map` returns the fixed records on the enumeration
(Sentinel-2 the Sentinel record, Landsat-8/9 the Landsat record) but is total
over all strings — every input gets one of the two fixed records; the
enumeration is enforced only by the collection-id dict of `generate_timelapse`,
whose lookup fails exactly outside the three satellites. -/
theorem get_band_map_total_amended :
    get_band_map "Sentinel-2" = sentinelBands ∧
    get_band_map "Landsat-8" = landsatBands ∧
    get_band_map "Landsat-9" = landsatBands ∧
    (∀ satellite : String,
      get_band_map satellite = sentinelBands ∨ get_band_map satellite = landsatBands) ∧
    (∀ satellite : String, collection_ids satellite = none ↔
      satellite ∉ (["Sentinel-2", "Landsat-8", "Landsat-9"] : List String)) := by
  refine ⟨rfl, rfl, rfl, ?_, ?_⟩
  · intro s
    unfold get_band_map
    cases strContains s "Sentinel"
    · exact Or.inr rfl
    · exact Or.inl rfl
  · intro s
    simp only [collection_ids, List.mem_cons, List.not_mem_nil, or_false, not_or]
    by_cases h1 : s = "Sentinel-2" <;> by_cases h2 : s = "Landsat-8" <;>
      by_cases h3 : s = "Landsat-9" <;> simp [beq_iff_eq, h1, h2, h3]

/-- C5 counterexample: at the index name "SAVI" (and any concrete image),
`apply_parameter` returns the input image unchanged — there is no SAVI branch
in the code, contradicting the claim that SAVI yields a fixed nonlinear
expression and is not the unchanged input. -/
theorem savi_unchanged_counterexample :
    apply_parameter (fun _ => 1) "SAVI" "Landsat-8" = .img (fun _ => 1) :=
  rfl

/-- C5 amended: only EVI gets the fixed nonlinear expression
2.5 * ((nir - red) / (nir + 6*red - 7.5*blue + 1)) per pixel, renamed "EVI",
and that result is never the input image unchanged; SAVI has no branch and
falls through to returning the input unchanged. -/
theorem evi_fixed_expression (satellite : String) (px : String → ℚ) :
    apply_parameter px "EVI" satellite =
      .band "EVI" ((5 / 2) * ((px (get_band_map satellite).nir - px (get_band_map satellite).red) /
        (px (get_band_map satellite).nir + 6 * px (get_band_map satellite).red -
          (15 / 2) * px (get_band_map satellite).blue + 1))) ∧
    apply_parameter px "EVI" satellite ≠ .img px ∧
    apply_parameter px "SAVI" satellite = .img px := by
  refine ⟨rfl, ?_, rfl⟩
  intro hc
  exact ImgOut.noConfusion hc

/-- C7: for every non-empty drawn coordinate ring, the stored bounds satisfy
upper-left latitude ≥ lower-right latitude and
upper-left longitude ≤ lower-right longitude. -/
theorem rectangle_bounds_invariant (coords : List (ℚ × ℚ)) (b : Bounds)
    (h : rectangle_bounds coords = some b) :
    b.lr_lat ≤ b.ul_lat ∧ b.ul_lon ≤ b.lr_lon := by
  cases coords with
  | nil => exact Option.noConfusion h
  | cons c cs =>
    simp only [rectangle_bounds, Option.some_inj] at h
    subst h
    exact ⟨le_trans (foldl_min_le c.2 (cs.map Prod.snd)) (le_foldl_max c.2 (cs.map Prod.snd)),
      le_trans (foldl_min_le c.1 (cs.map Prod.fst)) (le_foldl_max c.1 (cs.map Prod.fst))⟩

/-- Witness for C7 at a concrete drawn rectangle ring. -/
theorem rectangle_bounds_invariant_witness :
    rectangle_bounds [((69 : ℚ), 22), (70, 23), (70, 21)] =
      some { ul_lat := 23, ul_lon := 69, lr_lat := 21, lr_lon := 70 } ∧
    ((21 : ℚ) ≤ 23 ∧ (69 : ℚ) ≤ 70) :=
  ⟨rfl, rectangle_bounds_invariant [((69 : ℚ), 22), (70, 23), (70, 21)]
    { ul_lat := 23, ul_lon := 69, lr_lat := 21, lr_lon := 70 } rfl⟩

/-- C8: the collection sent for video rendering holds at most 20 images, is
sorted ascending by `system:time_start`, the sort is a permutation of the
filtered collection, and every selected timestamp is at most every timestamp
left out by the limit — the selected images are the earliest ones. -/
theorem timelapse_selection_spec (col : List ℕ) :
    (timelapseSelection col).length ≤ 20 ∧
    (timelapseSelection col).Sorted (· ≤ ·) ∧
    (sortByTimeStart col).Perm col ∧
    (∀ x ∈ timelapseSelection col, ∀ y ∈ (sortByTimeStart col).drop 20, x ≤ y) := by
  have hs : (sortByTimeStart col).Sorted (· ≤ ·) := List.sorted_insertionSort _ col
  refine ⟨List.length_take_le 20 _, hs.sublist (List.take_sublist 20 _),
    List.perm_insertionSort _ col, ?_⟩
  intro x hx y hy
  have hsplit :
      ((sortByTimeStart col).take 20 ++ (sortByTimeStart col).drop 20).Pairwise (· ≤ ·) := by
    rw [List.take_append_drop]
    exact hs
  exact (List.pairwise_append.mp hsplit).2.2 x hx y hy

/-- Witness for C8 on a 21-image collection given in descending order: the
earliest timestamp 0 is selected, timestamp 20 is left out by the limit. -/
theorem timelapse_selection_spec_witness :
    (0 ∈ timelapseSelection (List.range 21).reverse ∧
      20 ∈ (sortByTimeStart (List.range 21).reverse).drop 20) ∧ 0 ≤ 20 :=
  ⟨⟨by decide, by decide⟩,
    (timelapse_selection_spec (List.range 21).reverse).2.2.2 0 (by decide) 20 (by decide)⟩

/-- C9: for every slider value `frame_idx` in the allowed range
`[1, total_count]` over a collection of size `total_count`, the accessed list
index `frame_idx - 1` is in bounds and the frame lookup succeeds. -/
theorem frame_scrubber_in_bounds (col : List ℕ) (frame_idx : ℕ)
    (h1 : 1 ≤ frame_idx) (h2 : frame_idx ≤ col.length) :
    frame_idx - 1 < col.length ∧ (frame_scrubber col frame_idx).isSome = true := by
  have hlt : frame_idx - 1 < col.length := by omega
  refine ⟨hlt, ?_⟩
  unfold frame_scrubber
  rw [List.take_length, List.getElem?_eq_getElem hlt]
  rfl

/-- Witness for C9 at a concrete 3-image collection and slider value 2. -/
theorem frame_scrubber_in_bounds_witness :
    (1 ≤ 2 ∧ 2 ≤ ([5, 7, 9] : List ℕ).length) ∧
    (2 - 1 < ([5, 7, 9] : List ℕ).length ∧
      (frame_scrubber [5, 7, 9] 2).isSome = true) :=
  ⟨⟨by decide, by decide⟩,
    frame_scrubber_in_bounds [5, 7, 9] 2 (by decide) (by decide)⟩
